import Mathlib

/-!
# CodeGenie landing page: Navbar, feature sections and Footer

A shallow embedding of the four React components of the landing page
(`Navbar.jsx`, `Features1.jsx`, `FeaturesDiagonal.jsx`, `Footer.jsx`).

A component is a function from its state and props to the element tree its
JSX denotes.  An `onClick` closure `() => setIsOpen(e)` is stored as the value
of `e` in the render that created the closure, so a click is the replacement of
the state by that value.  Events are handled one at a time and the component
is rendered again between two events.
-/

namespace CodeGenie

/-! ## Element trees -/

/-- Props of `motion.div` that the components set.  Opacities are the integers
0 and 1 of the source; `transition` (durations in seconds) only shapes the
animation curve and is not represented. -/
structure Motion where
  initial : Nat
  animate : Option Nat := none
  whileInView : Option Nat := none
  viewportOnce : Bool := false
  exit : Option Nat := none
  deriving DecidableEq, Repr

/-- String and handler props of a JSX element.  `onClick = some v` stands for
the closure `() => setIsOpen(v)`. -/
structure Attrs where
  className : String := ""
  id : Option String := none
  href : Option String := none
  ariaLabel : Option String := none
  target : Option String := none
  rel : Option String := none
  key : Option String := none
  onClick : Option Bool := none
  other : List (String × String) := []
  deriving DecidableEq, Repr

/-- JSX element tags used by the four components. -/
inductive Tag
  | nav | div | a | sect | footer | p | h2 | h3 | ul | li | span | img | svg | path
  deriving DecidableEq, Repr

/-- An element tree: text, a DOM element, a `motion.div`, or another component
(`AnimatePresence`, the logo and the icons) named by its identifier. -/
inductive Html
  | text (s : String)
  | el (tag : Tag) (attrs : Attrs) (children : List Html)
  | motionDiv (m : Motion) (children : List Html)
  | comp (name : String) (children : List Html)

mutual
/-- Concatenated text of a tree, as the DOM `textContent`. -/
def Html.textContent : Html → String
  | .text s => s
  | .el _ _ cs => Html.textContentList cs
  | .motionDiv _ cs => Html.textContentList cs
  | .comp _ cs => Html.textContentList cs
/-- Text of a list of siblings. -/
def Html.textContentList : List Html → String
  | [] => ""
  | c :: cs => c.textContent ++ Html.textContentList cs
end

/-- An anchor as rendered: its props, its text, and the click handlers that
run when it is activated, its own first and then those of its ancestors
(event bubbling). -/
structure Anchor where
  href : Option String
  label : String
  ariaLabel : Option String
  key : Option String
  handlers : List Bool
  deriving DecidableEq, Repr

/-- Handlers of an element followed by the inherited ones. -/
def bubble (own : Option Bool) (inherited : List Bool) : List Bool :=
  own.toList ++ inherited

mutual
/-- Anchors of a tree in document order; `up` are the handlers of the
ancestors, innermost first. -/
def Html.anchors (up : List Bool) : Html → List Anchor
  | .text _ => []
  | .el tag ps cs =>
    (if tag = Tag.a then
      [{ href := ps.href, label := Html.textContentList cs, ariaLabel := ps.ariaLabel,
         key := ps.key, handlers := bubble ps.onClick up }]
     else []) ++ Html.anchorsList (bubble ps.onClick up) cs
  | .motionDiv _ cs => Html.anchorsList up cs
  | .comp _ cs => Html.anchorsList up cs
/-- Anchors of a list of siblings. -/
def Html.anchorsList (up : List Bool) : List Html → List Anchor
  | [] => []
  | c :: cs => c.anchors up ++ Html.anchorsList up cs
end

mutual
/-- Decidable equality of element trees. -/
def Html.decEq : (x y : Html) → Decidable (x = y)
  | .text s, .text s' =>
    if h : s = s' then isTrue (by rw [h]) else isFalse (fun e => h (by injection e))
  | .el t ps cs, .el t' ps' cs' =>
    if h₁ : t = t' then
      if h₂ : ps = ps' then
        match Html.decEqList cs cs' with
        | isTrue h₃ => isTrue (by rw [h₁, h₂, h₃])
        | isFalse h₃ => isFalse (fun e => h₃ (by injection e))
      else isFalse (fun e => h₂ (by injection e))
    else isFalse (fun e => h₁ (by injection e))
  | .motionDiv m cs, .motionDiv m' cs' =>
    if h₁ : m = m' then
      match Html.decEqList cs cs' with
      | isTrue h₃ => isTrue (by rw [h₁, h₃])
      | isFalse h₃ => isFalse (fun e => h₃ (by injection e))
    else isFalse (fun e => h₁ (by injection e))
  | .comp n cs, .comp n' cs' =>
    if h₁ : n = n' then
      match Html.decEqList cs cs' with
      | isTrue h₃ => isTrue (by rw [h₁, h₃])
      | isFalse h₃ => isFalse (fun e => h₃ (by injection e))
    else isFalse (fun e => h₁ (by injection e))
  | .text _, .el _ _ _ => isFalse (fun e => by cases e)
  | .text _, .motionDiv _ _ => isFalse (fun e => by cases e)
  | .text _, .comp _ _ => isFalse (fun e => by cases e)
  | .el _ _ _, .text _ => isFalse (fun e => by cases e)
  | .el _ _ _, .motionDiv _ _ => isFalse (fun e => by cases e)
  | .el _ _ _, .comp _ _ => isFalse (fun e => by cases e)
  | .motionDiv _ _, .text _ => isFalse (fun e => by cases e)
  | .motionDiv _ _, .el _ _ _ => isFalse (fun e => by cases e)
  | .motionDiv _ _, .comp _ _ => isFalse (fun e => by cases e)
  | .comp _ _, .text _ => isFalse (fun e => by cases e)
  | .comp _ _, .el _ _ _ => isFalse (fun e => by cases e)
  | .comp _ _, .motionDiv _ _ => isFalse (fun e => by cases e)
/-- Decidable equality of lists of siblings. -/
def Html.decEqList : (xs ys : List Html) → Decidable (xs = ys)
  | [], [] => isTrue rfl
  | [], _ :: _ => isFalse (fun e => by cases e)
  | _ :: _, [] => isFalse (fun e => by cases e)
  | x :: xs, y :: ys =>
    match Html.decEq x y with
    | isTrue h₁ =>
      match Html.decEqList xs ys with
      | isTrue h₂ => isTrue (by rw [h₁, h₂])
      | isFalse h₂ => isFalse (fun e => h₂ (by injection e))
    | isFalse h₁ => isFalse (fun e => h₁ (by injection e))
end

instance : DecidableEq Html := Html.decEq

mutual
/-- Whether `sub` occurs strictly below the root of a tree. -/
def Html.containsBelow (sub : Html) : Html → Bool
  | .text _ => false
  | .el _ _ cs => Html.containsList sub cs
  | .motionDiv _ cs => Html.containsList sub cs
  | .comp _ cs => Html.containsList sub cs
/-- Whether `sub` occurs in one of the siblings, as a sibling or below one. -/
def Html.containsList (sub : Html) : List Html → Bool
  | [] => false
  | c :: cs => decide (c = sub) || Html.containsBelow sub c || Html.containsList sub cs
end

/-- Whether `sub` occurs in a tree, as the tree itself or below it. -/
def Html.contains (sub t : Html) : Bool :=
  decide (t = sub) || Html.containsBelow sub t

/-! ## Navbar.jsx -/

/-- An entry of `navbarLinks`. -/
structure NavLink where
  label : String
  href : String
  ariaLabel : String
  deriving DecidableEq, Repr

/-- `const navbarLinks = [...]` (the commented-out Feedback entry is not part
of the array). -/
def navbarLinks : List NavLink :=
  [ { label := "Home", href := "#home", ariaLabel := "Home" },
    { label := "Features", href := "#features", ariaLabel := "Features" },
    { label := "Pricing", href := "#pricing", ariaLabel := "Pricing" },
    { label := "FAQ", href := "#FAQ", ariaLabel := "FAQ" } ]

/-- The props `initial={{ opacity: 0 }} animate={{ opacity: 1 }}
exit={{ opacity: 0 }}` shared by every `motion.div` of the Navbar. -/
def fadeIn : Motion := { initial := 0, animate := some 1, exit := some 0 }

/-- The brand anchor (lines 27-38): no `onClick`. -/
def brandLink : Html :=
  .el .div { className := "w-[180px]" } [
    .el .a { className := "unstyled navbar-link", href := some "#home", ariaLabel := some "Home" } [
      .el .div { className := "flex justify-start items-center grow basis-0" } [
        .el .div { className := "text-white mr-2 text-6xl" } [.comp "CodeGenieLogo" []],
        .el .div { className := "text-white font-[\x27Inter\x27] font-bold text-xl" } [.text "Code Genie"]]]]

/-- The desktop list (lines 46-57): `navbarLinks.map` with `key={label}` and
no `onClick`. -/
def desktopLinks : Html :=
  .el .div { className := "hidden md:flex h-full pb-2" }
    (navbarLinks.map fun l =>
      .el .a { className := "unstyled navbar-link", href := some l.href,
               ariaLabel := some l.ariaLabel, key := some l.label } [.text l.label])

/-- The empty right-hand box (lines 65-76); its only child is commented out. -/
def sourceCodeBox : Html :=
  .el .div { className := "grow basis-0 justify-end hidden md:flex w-[180px]" } []

/-- The hamburger toggle (lines 78-85) with
`onClick={() => setIsOpen(!isOpen)}`. -/
def toggleButton (isOpen : Bool) : Html :=
  .el .div { className := "md:hidden flex flex-col  px-2 py-3 border-solid border border-gray-600 rounded-md cursor-pointer hover:bg-customDarkBg2",
             onClick := some (!isOpen) } [
    .el .div { className := "w-5 h-0.5 bg-gray-500  mb-1" } [],
    .el .div { className := "w-5 h-0.5 bg-gray-500  mb-1" } [],
    .el .div { className := "w-5 h-0.5 bg-gray-500 " } []]

/-- The mobile link panel (lines 90-122): `navbarLinks.map` with `key={href}`
and `onClick={() => setIsOpen(false)}` on every anchor. -/
def mobilePanel : Html :=
  .motionDiv fadeIn [
    .el .div { className := "flex flex-col mt-16 lg:hidden absolute top-4 left-0  bg-customDarkBg1 z-50 w-full \n        items-center gap-10 pb-10 border-y border-solid border-customDarkBg3 pt-10\n        " }
      (navbarLinks.map fun l =>
        .el .a { key := some l.href, className := "navbar-link unstyled", href := some l.href,
                 onClick := some false, ariaLabel := some l.ariaLabel } [.text l.label])]

/-- Children of `AnimatePresence`: `{isOpen && (...)}`; the value `false` renders
nothing. -/
def mobileSlot (isOpen : Bool) : List Html :=
  if isOpen then [mobilePanel] else []

/-- The tree `Navbar` returns in a render where the state is `isOpen`. -/
def Navbar (isOpen : Bool) : Html :=
  .el .nav { className := "w-full h-20 flex flex-col justify-center items-center fixed bg-customDarkBg1 lg:bg-customDarkBgTransparent z-40 lg:backdrop-blur-xl" } [
    .el .div { className := "w-11/12 xl:w-10/12 2xl:w-[1280px] flex justify-between items-center relative" } [
      .motionDiv fadeIn [brandLink],
      .motionDiv fadeIn [desktopLinks],
      .motionDiv fadeIn [sourceCodeBox],
      toggleButton isOpen],
    .comp "AnimatePresence" (mobileSlot isOpen)]

/-- The state `useState(false)` gives to the first render. -/
def initialIsOpen : Bool := false

/-- State after the handlers of one click have run: each is a call
`setIsOpen(v)` of the same batch, so the last call decides; with no handler
the state is kept. -/
def fire (isOpen : Bool) (handlers : List Bool) : Bool :=
  handlers.foldl (fun _ v => v) isOpen

/-- The `onClick` of the root element of a tree. -/
def Html.onClick : Html → Option Bool
  | .el _ ps _ => ps.onClick
  | _ => none

/-- User events on the Navbar: a click on the hamburger, on the brand anchor,
on the anchor of the `i`-th entry of `navbarLinks` in the desktop list, or on
that entry's anchor in the mobile panel. -/
inductive Event
  | toggle
  | brand
  | desktop (i : Fin navbarLinks.length)
  | mobile (i : Fin navbarLinks.length)
  deriving DecidableEq, Repr

/-- Handlers run by a click on the `i`-th anchor of the given rendered trees; a
target that is not rendered receives no click. -/
def anchorHandlers (ts : List Html) (i : Nat) : List Bool :=
  match (Html.anchorsList [] ts)[i]? with
  | some a => a.handlers
  | none => []

/-- One event in the render of state `isOpen`. -/
def Navbar.step (isOpen : Bool) : Event → Bool
  | .toggle => fire isOpen (bubble (toggleButton isOpen).onClick [])
  | .brand => fire isOpen (anchorHandlers [brandLink] 0)
  | .desktop i => fire isOpen (anchorHandlers [desktopLinks] i)
  | .mobile i => fire isOpen (anchorHandlers (mobileSlot isOpen) i)

/-- A sequence of events, the component rendering again after each. -/
def Navbar.run (isOpen : Bool) (evs : List Event) : Bool :=
  evs.foldl Navbar.step isOpen

/-- The `(href, label, aria-label)` triple of a rendered anchor. -/
def Anchor.triple (a : Anchor) : Option String × String × Option String :=
  (a.href, a.label, a.ariaLabel)

/-- The triple an entry of `navbarLinks` is rendered with. -/
def NavLink.triple (l : NavLink) : Option String × String × Option String :=
  (some l.href, l.label, some l.ariaLabel)

/-! ## Features1.jsx and FeaturesDiagonal.jsx -/

mutual
/-- Elements that carry an `id`, with their tag, in document order. -/
def Html.ids : Html → List (Tag × String)
  | .text _ => []
  | .el tag ps cs => (ps.id.map fun i => (tag, i)).toList ++ Html.idsList cs
  | .motionDiv _ cs => Html.idsList cs
  | .comp _ cs => Html.idsList cs
/-- Identified elements of a list of siblings. -/
def Html.idsList : List Html → List (Tag × String)
  | [] => []
  | c :: cs => c.ids ++ Html.idsList cs
end

mutual
/-- Props of the `motion.div`s of a tree, in document order. -/
def Html.motions : Html → List Motion
  | .text _ => []
  | .el _ _ cs => Html.motionsList cs
  | .motionDiv m cs => m :: Html.motionsList cs
  | .comp _ cs => Html.motionsList cs
/-- Props of the `motion.div`s of a list of siblings. -/
def Html.motionsList : List Html → List Motion
  | [] => []
  | c :: cs => c.motions ++ Html.motionsList cs
end

/-- The props `initial={{ opacity: 0 }} whileInView={{ opacity: 1 }}
viewport={{ once: true }}` of the `motion.div` of both feature sections. -/
def revealOnce : Motion := { initial := 0, whileInView := some 1, viewportOnce := true }

/-- One `<li className="mb-4 flex">` of the feature list: an icon and a
`span` with the given children. -/
def featureItem (icon : String) (content : List Html) : Html :=
  .el .li { className := "mb-4 flex" } [.comp icon [], .el .span {} content]

/-- One `<img>` of the feature section; `src` is the `.src` of the imported
asset, named here by its import path. -/
def featureImage (box asset alt : String) : Html :=
  .el .div { className := box } [
    .el .img { className := "w-full max-w-[120px] mx-auto", other := [("src", asset), ("alt", alt)] } []]

/-- The tree `Features1` returns. -/
def Features1 : Html :=
  .el .sect { className := "w-full bg-customDarkBg2 mb-10 lg:mb-20", id := some "features" } [
    .motionDiv revealOnce [
      .el .div { className := "w-11/12 xl:w-10/12 2xl:w-[1280px] mx-auto md:pl-4 xl:pr-16 xl:pl-16" } [
        .el .div { className := "w-full xl:w-2/3 mb-12 lg:mb-0" } [
          .el .span { className := "custom-block-subtitle" } [
            .el .span { className := "text-3xl" } [.text "🚀"], .text " Kickstart innovation"],
          .el .h2 { className := "mt-6 mb-8 text-4xl lg:text-5xl custom-block-big-title" } [
            .text "Generate a solid ",
            .el .span { className := "gradient-text" } [.text "software foundation"],
            .text " instantly"],
          .el .p { className := "mb-10 text-customGrayText leading-loose text-justify" } [
            .text "Code Genie takes care of the boring stuff so you can focus on what makes your product special. Download the source code for your full stack application and deploy to AWS to have a live app in minutes!"]],
        .el .div { className := "w-full mb-12 lg:mb-0 flex justify-between" } [
          .el .div { className := "w-2/3 md:w-1/2 lg:w-1/3" } [
            .el .ul { className := "mb-6 text-white w-11/12 sm:w-4/5 md:w-3/4 lg:w-unset" } [
              featureItem "CheckArrowIcon" [.text "React Web App"],
              featureItem "CheckArrowIcon" [.text "Serverless Express REST API"],
              featureItem "CheckArrowIcon" [.text "Cognito Authentication"],
              featureItem "CheckArrowIcon" [.text "DynamoDB Database"],
              featureItem "CheckArrowIcon" [.text "Operational Dashboards & Alarms"],
              featureItem "CheckArrowIcon" [.text "CDK Infrastructure as Code (IAC)"],
              featureItem "CheckArrowIcon" [.text "Continuous Integration/Delivery (CI/CD)"],
              featureItem "HourGlassIcon" [
                .text "Unit/Integration Tests ",
                .el .span { className := "text-xs text-neutral-400" } [.text "coming soon"]]]],
          .el .div { className := "w-1/3 md:w-1/2 lg:w-2/3 mx-auto flex-wrap justify-end flex items-center md:items-start" } [
            .el .div { className := "w-1/2 md:w-1/3 lg:w-1/4 px-2 lg:px-0 -mt-10" } [
              featureImage "mb-4 rounded" "../assets/images/ui.webp" "UI",
              featureImage "rounded" "../assets/images/api.webp" "API"],
            .el .div { className := "w-1/2 md:w-1/3 lg:w-1/4 px-2" } [
              featureImage "mb-4 rounded-lg" "../assets/images/auth.webp" "auth",
              featureImage "rounded-lg" "../assets/images/database.webp" "database"]]]]]]

/-- The diagonal divider `<svg>` that `FeaturesDiagonal` renders above and
below its content. -/
def diagonalSvg : Html :=
  .el .svg { className := "custom-bg-dark2",
             other := [("data-name", "Layer 1"), ("xmlns", "http://www.w3.org/2000/svg"),
                       ("viewBox", "0 0 1200 120"), ("preserveAspectRatio", "none")] } [
    .el .path { className := "custom-bg-dark1", other := [("d", "M1200 120L0 16.48 0 0 1200 0 1200 120z")] } []]

/-- The tree `FeaturesDiagonal` returns for the `children` prop it is given. -/
def FeaturesDiagonal (children : List Html) : Html :=
  .el .sect { className := "lg:mb-16 w-full flex flex-col justify-center items-center bg-customDarkBg1" } [
    .el .div { className := "custom-shape-divider-bottom-1665696614" } [diagonalSvg],
    .motionDiv revealOnce [
      .el .div { className := "2xl:w-[1150px] xl:w-[1050px]  md:w-4/5 flex justify-center bg-customDarkBg1 pt-12 lg:pt-24 pb-8 lg:pb-20 mx-auto lg:flex-row flex-col" } [
        .el .div { className := "w-3/4 lg:w-1/2 flex flex-col lg:mx-unset mx-auto" } [
          .el .span { className := "custom-block-subtitle" } [
            .el .span { className := "text-3xl leading-4 mr-2" } [.text "🏗️"], .text " ",
            .el .span { className := "align-text-bottom" } [.text "Built for you"]],
          .el .h2 { className := "mt-10 mb-8 text-4xl lg:text-5xl custom-block-big-title" } [
            .el .span { className := "gradient-text" } [.text "Relevant source code"],
            .text " based on your", .text " ",
            .el .span { className := "gradient-text" } [.text "data model or idea"]],
          .el .p { className := "mb-16 text-customGrayText leading-loose text-justify" } [
            .text "Provide Code Genie with your application\x27s data model, and it will generate application source code to meet your requirements. Don\x27t have a data model? Simply tell Code Genie your \"wish\" (app idea/description) and it\x27ll do its best to design an initial data model for you!"],
          .el .a { href := some "/docs/guides/getting-started", className := "w-[210px] h-12 custom-button-colored unstyled" } [
            .text "Get Started"]],
        .el .div { className := "w-4/5 lg:w-full lg:pl-16 flex justify-center mx-auto pt-16 lg:pt-0" } children]],
    .el .div { className := "custom-shape-divider-top-1665696661 w-full" } [diagonalSvg]]

/-! ### Viewport reveal -/

/-- The viewport callbacks an element receives while the page scrolls. -/
inductive ViewportEvent
  | enter
  | leave
  deriving DecidableEq, Repr

/-- State of the reveal of one element instance: the opacity the element is
animated towards, and whether its viewport observer is still attached. -/
structure Reveal where
  target : Nat
  observing : Bool
  deriving DecidableEq, Repr

/-- Opacity target of an element that is out of view: `animate` when given,
`initial` otherwise. -/
def Motion.rest (m : Motion) : Nat := m.animate.getD m.initial

/-- State of a freshly mounted element. -/
def Reveal.mount (m : Motion) : Reveal := { target := m.rest, observing := true }

/-- Modelled from the spec: the viewport observer behind the `whileInView` and
`viewport` props belongs to the animation library and is not part of the
sources.  Section 4.2 and the design notes describe it as an intersection
observer whose first "entered" event is consumed once and whose later events
are ignored (a one-shot trigger, not a toggle); that is the `once` case below,
where the observer is detached by the first enter.  Without `once` the element
goes back to its resting target when it leaves the viewport. -/
def Reveal.step (m : Motion) (st : Reveal) : ViewportEvent → Reveal
  | .enter =>
    if st.observing then
      match m.whileInView with
      | some v => { target := v, observing := !m.viewportOnce }
      | none => st
    else st
  | .leave => if st.observing then { st with target := m.rest } else st

/-- State after a sequence of viewport events. -/
def Reveal.run (m : Motion) (st : Reveal) (evs : List ViewportEvent) : Reveal :=
  evs.foldl (Reveal.step m) st

/-- Opacity targets along a sequence of events: the one before the first event
and the one after each event. -/
def Reveal.trace (m : Motion) (st : Reveal) : List ViewportEvent → List Nat
  | [] => [st.target]
  | e :: es => st.target :: Reveal.trace m (Reveal.step m st e) es

/-- Number of places where a list of targets goes from 0 to 1. -/
def rises : List Nat → Nat
  | a :: b :: rest => (if a = 0 ∧ b = 1 then 1 else 0) + rises (b :: rest)
  | _ => 0

/-- Number of places where a list of targets goes from 1 to 0. -/
def falls : List Nat → Nat
  | a :: b :: rest => (if a = 1 ∧ b = 0 then 1 else 0) + falls (b :: rest)
  | _ => 0

/-! ## Footer.jsx -/

/-- An entry of `items` in `footerData`. -/
structure FooterItem where
  title : String
  href : String
  deriving DecidableEq, Repr

/-- An entry of `footerData`. -/
structure FooterSection where
  title : String
  items : List FooterItem
  deriving DecidableEq, Repr

/-- `const footerData = [...]`. -/
def footerData : List FooterSection :=
  [ { title := "Products",
      items := [ { title := "Serverless Express",
                   href := "https://github.com/CodeGenieApp/serverless-express" } ] },
    { title := "Important Links",
      items := [ { title := "Terms & Conditions", href := "/terms-and-conditions" },
                 { title := "Privacy Policy", href := "/privacy-policy" } ] },
    { title := "Company",
      items := [ { title := "Contact Us", href := "mailto:brett@codegenie.codes" } ] } ]

/-- One social anchor of the Footer (lines 56-82). -/
def socialLink (href ariaLabel icon : String) : Html :=
  .el .a { className := "inline-block w-10  h-10 mr-2 p-2 bg-customDarkBg2 custom-border-gray  hover:bg-gray-700 rounded-xl",
           href := some href, target := some "_blank", rel := some "noopener",
           ariaLabel := some ariaLabel } [.comp icon []]

/-- The box of the three social anchors (lines 55-83), with the `href`,
`aria-label` and icon each one has in the source. -/
def socialLinks : Html :=
  .el .div { className := "w-36 mx-auto lg:mx-0" } [
    socialLink "https://twitter.com/CodeGenieCodes" "Twitter" "TwitterIcon",
    socialLink "https://discord.gg/YJ9gQhheyn" "GitHub" "DiscordIcon",
    socialLink "https://github.com/CodeGenieApp" "GitHub" "GithubIcon"]

/-- The list items `items.map((item, i) => <li key={i}>...)` of a column. -/
def footerItems (items : List FooterItem) : List Html :=
  items.enum.map fun (i, item) =>
    .el .li { key := some (toString i), className := "mb-4" } [
      .el .a { className := "text-gray-400 hover:text-gray-300", href := some item.href } [
        .text item.title]]

/-- One category column (lines 86-97, 98-109, 110-121): the heading is a
string literal of the JSX, the items come from `footerData`. -/
def footerColumn (className heading : String) (items : List FooterItem) : Html :=
  .el .div { className := className } [
    .el .h3 { className := "mb-6 text-2xl font-bold text-white" } [.text heading],
    .el .ul {} (footerItems items)]

/-- The tree `Footer` returns; `footerData[i].items` throws when `i` is out of
bounds, and then there is no tree. -/
def Footer : Option Html := do
  let s0 ← footerData[0]?
  let s1 ← footerData[1]?
  let s2 ← footerData[2]?
  pure <|
    .el .footer {} [
      .el .div { className := "pt-10  lg:pt-20 lg:pb-12 bg-customDarkBg1 radius-for-skewed " } [
        .el .div { className := "container mx-auto px-4 w-4/5 md:w-11/12 lg:w-10/12 xl:w-4/5 2xl:w-2/3" } [
          .el .div { className := "flex flex-wrap" } [
            .el .div { className := "w-full lg:w-1/3 mb-16 lg:mb-0" } [
              .el .div { className := "flex justify-center lg:justify-start items-center grow basis-0" } [
                .el .div { className := "text-white mr-2 text-6xl" } [.comp "CodeGenieLogo" []],
                .el .div { className := "text-white font-[\x27Inter\x27] font-bold text-xl" } [.text "Code Genie"]],
              .el .p { className := "mb-10 mt-4 sm:w-[22rem] lg:w-[20rem] xl:w-[24rem] text-gray-400 leading-loose text-center lg:text-left mx-auto lg:mx-0" } [
                .text "Save months on your next software project"],
              socialLinks],
            .el .div { className := "w-full lg:w-2/3  lg:pl-16 hidden lg:flex flex-wrap justify-between" } [
              footerColumn "w-full md:w-1/3 lg:w-auto mb-16 md:mb-0" "Products" s0.items,
              footerColumn "w-full md:w-1/3 lg:w-auto mb-16 md:mb-0" "Important Links" s1.items,
              footerColumn "w-full md:w-1/3 lg:w-auto" "Company" s2.items]],
          .el .p { className := "lg:text-center text-sm text-gray-400 border-t border-[rgb(255,255,255,0.2)] pt-12 mt-16 hidden lg:block" } [
            .text "© 2024. Code Genie."]]]]

/-- A heading followed by a list at the start of a list of siblings: the text
of the `h3` and the anchors of the `ul`. -/
def headedList : List Html → List (String × List Anchor)
  | .el .h3 _ hs :: .el .ul _ ls :: _ => [(Html.textContentList hs, Html.anchorsList [] ls)]
  | _ => []

mutual
/-- The headed lists of a tree in document order. -/
def Html.columns : Html → List (String × List Anchor)
  | .text _ => []
  | .el _ _ cs => headedList cs ++ Html.columnsList cs
  | .motionDiv _ cs => headedList cs ++ Html.columnsList cs
  | .comp _ cs => headedList cs ++ Html.columnsList cs
/-- The headed lists of a list of siblings. -/
def Html.columnsList : List Html → List (String × List Anchor)
  | [] => []
  | c :: cs => c.columns ++ Html.columnsList cs
end

/-- The anchor a footer item is rendered as: text `item.title`, destination
`item.href`, no other prop read by `Html.anchors`. -/
def FooterItem.anchor (item : FooterItem) : Anchor :=
  { href := some item.href, label := item.title, ariaLabel := none, key := none, handlers := [] }

/-! ## The four components together -/

/-- Identified elements of the trees of `Navbar`, `Features1`,
`FeaturesDiagonal` and `Footer`. -/
def componentIds (isOpen : Bool) (children : List Html) : List (Tag × String) :=
  (Navbar isOpen).ids ++ Features1.ids ++ (FeaturesDiagonal children).ids
    ++ Html.idsList Footer.toList

/-- Number of identified elements a fragment `href` points to: those whose
`id` is the fragment without its leading `#`. -/
def targetsOf (ids : List (Tag × String)) (href : String) : Nat :=
  ids.countP fun e => decide (href = "#" ++ e.2)

/-- The anchor of the FAQ entry as the mobile panel renders it. -/
def faqPanelAnchor : Anchor :=
  { href := some "#FAQ", label := "FAQ", ariaLabel := some "FAQ", key := some "#FAQ",
    handlers := [false] }

/-! ## Navbar: theorems -/

set_option maxRecDepth 8192

theorem step_toggle (s : Bool) : Navbar.step s Event.toggle = !s := by
  cases s <;> rfl

theorem run_append (s : Bool) (xs ys : List Event) :
    Navbar.run s (xs ++ ys) = Navbar.run (Navbar.run s xs) ys := by
  simp [Navbar.run, List.foldl_append]

theorem run_toggles_succ (s : Bool) (n : Nat) :
    Navbar.run s (List.replicate (n + 1) Event.toggle)
      = !Navbar.run s (List.replicate n Event.toggle) := by
  rw [List.replicate_succ', run_append]
  simp [Navbar.run, step_toggle]

theorem step_mobile (s : Bool) (i : Fin navbarLinks.length) :
    Navbar.step s (Event.mobile i) = false := by
  revert i; revert s; decide

/-- C1: from the state `useState(false)` gives, after `n` clicks on the
hamburger the menu is open exactly when `n` is odd; each click flips the state
reached by the clicks before it, and two clicks in a row give back the state
they started from. -/
theorem toggle_open_iff_odd (n : Nat) :
    (Navbar.run initialIsOpen (List.replicate n Event.toggle) = true ↔ n % 2 = 1)
    ∧ Navbar.run initialIsOpen (List.replicate (n + 1) Event.toggle)
        = (!Navbar.run initialIsOpen (List.replicate n Event.toggle))
    ∧ ∀ s : Bool, Navbar.step (Navbar.step s Event.toggle) Event.toggle = s := by
  refine ⟨?_, run_toggles_succ _ n, fun s => by simp [step_toggle]⟩
  induction n with
  | zero => simp [Navbar.run, initialIsOpen]
  | succ k ih =>
    rw [run_toggles_succ]
    cases h : Navbar.run initialIsOpen (List.replicate k Event.toggle)
    · have hk : ¬ k % 2 = 1 := fun e => by simp [ih.mpr e] at h
      simp; omega
    · have hk : k % 2 = 1 := ih.mp h
      simp; omega

/-- C2: in every state `s` and for every entry `i` of `navbarLinks`, a click on
that entry's anchor in the mobile panel gives the closed state, whatever `s`
and `i` are; doing it twice is the same as once; and every sequence of events
that ends in such a click ends closed. -/
theorem select_link_closes (s : Bool) (i : Fin navbarLinks.length) :
    fire s (anchorHandlers [mobilePanel] i) = false
    ∧ ((Html.anchorsList [] [mobilePanel])[i.val]?).map Anchor.triple
        = some (navbarLinks.get i).triple
    ∧ Navbar.step s (Event.mobile i) = false
    ∧ Navbar.step (Navbar.step s (Event.mobile i)) (Event.mobile i)
        = Navbar.step s (Event.mobile i)
    ∧ ∀ evs : List Event, Navbar.run s (evs ++ [Event.mobile i]) = false := by
  refine ⟨?_, ?_, step_mobile s i, by simp [step_mobile], fun evs => ?_⟩
  · revert i; revert s; decide
  · revert i; decide
  · rw [run_append]; simp [Navbar.run, step_mobile]

/-- C3, as stated, fails: the brand anchor is rendered while the menu is open,
and a click on it leaves the menu open. -/
theorem brand_click_keeps_open :
    Navbar.step true Event.brand = true
    ∧ ¬ (∀ a ∈ (Navbar true).anchors [], fire true a.handlers = false) := by
  decide

/-- C3, amended: a click on an anchor the Navbar renders while the menu is open
leaves the menu closed exactly when the anchor is one of the links of the
mobile panel; the brand anchor and the anchors of the desktop list carry no
handler and the menu stays open. -/
theorem click_closes_iff_mobile (a : Anchor) (h : a ∈ (Navbar true).anchors []) :
    (fire true a.handlers = false ↔ a ∈ mobilePanel.anchors [])
    ∧ (a ∈ brandLink.anchors [] ++ desktopLinks.anchors [] → fire true a.handlers = true) := by
  revert a; decide

theorem click_closes_iff_mobile_witness :
    faqPanelAnchor ∈ (Navbar true).anchors []
    ∧ (fire true faqPanelAnchor.handlers = false ↔ faqPanelAnchor ∈ mobilePanel.anchors [])
    ∧ (faqPanelAnchor ∈ brandLink.anchors [] ++ desktopLinks.anchors []
        → fire true faqPanelAnchor.handlers = true) :=
  ⟨by decide, click_closes_iff_mobile faqPanelAnchor (by decide)⟩

/-- C4: the tree the Navbar renders contains the mobile link panel exactly
when `isOpen` is true: the first render has no panel, the render after one
click on the hamburger has it, and the render after a following click on any
link of the panel has none. -/
theorem panel_rendered_iff_open (s : Bool) :
    (Html.contains mobilePanel (Navbar s) = true ↔ s = true)
    ∧ Html.contains mobilePanel (Navbar initialIsOpen) = false
    ∧ Html.contains mobilePanel (Navbar (Navbar.step initialIsOpen Event.toggle)) = true
    ∧ ∀ i : Fin navbarLinks.length,
        Html.contains mobilePanel
          (Navbar (Navbar.step (Navbar.step initialIsOpen Event.toggle) (Event.mobile i))) = false := by
  revert s; decide

/-- C8: in every state the desktop list is rendered, and when the menu is open
the mobile panel is rendered, with the same `(href, label, aria-label)`
triples: the four entries of `navbarLinks`, `#home`, `#features`, `#pricing`,
`#FAQ`, in that order.  The state reached by any sequence of events renders
the same triples, as `navbarLinks` is no part of the state. -/
theorem navbar_links_shared (s : Bool) :
    Html.contains desktopLinks (Navbar s) = true
    ∧ (desktopLinks.anchors []).map Anchor.triple = navbarLinks.map NavLink.triple
    ∧ (Html.anchorsList [] (mobileSlot s)).map Anchor.triple
        = (if s then navbarLinks.map NavLink.triple else [])
    ∧ ((Navbar s).anchors []).map Anchor.triple
        = (some "#home", "Code Genie", some "Home") :: navbarLinks.map NavLink.triple
            ++ (if s then navbarLinks.map NavLink.triple else [])
    ∧ navbarLinks.map NavLink.triple
        = [(some "#home", "Home", some "Home"), (some "#features", "Features", some "Features"),
           (some "#pricing", "Pricing", some "Pricing"), (some "#FAQ", "FAQ", some "FAQ")]
    ∧ ∀ evs : List Event,
        Html.contains desktopLinks (Navbar (Navbar.run s evs)) = true
        ∧ (Html.anchorsList [] (mobileSlot (Navbar.run s evs))).map Anchor.triple
            = (if Navbar.run s evs then navbarLinks.map NavLink.triple else []) := by
  have h : ∀ b : Bool, Html.contains desktopLinks (Navbar b) = true
      ∧ (Html.anchorsList [] (mobileSlot b)).map Anchor.triple
          = (if b then navbarLinks.map NavLink.triple else []) := by decide
  refine ⟨(h s).1, by decide, (h s).2, ?_, by decide, fun evs => h _⟩
  revert s; decide

/-- C9: the labels of `navbarLinks` are pairwise distinct and so are its hrefs;
the keys of the anchors of the desktop list are the labels and the keys of the
anchors of the mobile panel are the hrefs, so no two anchors of either list
share a key. -/
theorem navbar_keys_unique :
    (navbarLinks.map fun l => l.label).Nodup
    ∧ (navbarLinks.map fun l => l.href).Nodup
    ∧ (desktopLinks.anchors []).map (fun a => a.key) = navbarLinks.map (fun l => some l.label)
    ∧ ((desktopLinks.anchors []).map fun a => a.key).Nodup
    ∧ (mobilePanel.anchors []).map (fun a => a.key) = navbarLinks.map (fun l => some l.href)
    ∧ ((mobilePanel.anchors []).map fun a => a.key).Nodup := by
  decide

/-! ## Feature sections: theorems -/

theorem featuresDiagonal_ids (children : List Html) :
    (FeaturesDiagonal children).ids = Html.idsList children := by
  simp [FeaturesDiagonal, diagonalSvg, Html.ids, Html.idsList]

theorem componentIds_eq (isOpen : Bool) (children : List Html) :
    componentIds isOpen children = (Tag.sect, "features") :: Html.idsList children := by
  have h₁ : ∀ b : Bool, (Navbar b).ids = [] := by decide
  have h₂ : Features1.ids = [(Tag.sect, "features")] := by decide
  have h₃ : Html.idsList Footer.toList = [] := by decide
  simp [componentIds, h₁, h₂, h₃, featuresDiagonal_ids]

/-- C5, as stated, fails: no element rendered by `Navbar`, `Features1`,
`FeaturesDiagonal` or `Footer` has the id `home`, so the fragment `#home` of
`navbarLinks` has no target among them. -/
theorem home_fragment_has_no_target :
    targetsOf (componentIds false []) "#home" = 0
    ∧ ¬ (∀ l ∈ navbarLinks, targetsOf (componentIds false []) l.href = 1) := by
  decide

/-- C5, amended: the only element with an `id` that `Navbar`, `Features1`,
`FeaturesDiagonal` and `Footer` render themselves is the `section` of
`Features1`, with id `features` (further ids can only come from the `children`
given to `FeaturesDiagonal`).  So the fragment `#features` has exactly one
target among the four components, and `#home`, `#pricing` and `#FAQ` have
none there. -/
theorem features_is_the_only_target (isOpen : Bool) (children : List Html) :
    componentIds isOpen children = (Tag.sect, "features") :: Html.idsList children
    ∧ (navbarLinks.map fun l => (l.href, targetsOf (componentIds isOpen []) l.href))
        = [("#home", 0), ("#features", 1), ("#pricing", 0), ("#FAQ", 0)] := by
  refine ⟨componentIds_eq isOpen children, ?_⟩
  rw [componentIds_eq]
  decide

theorem featuresDiagonal_motions (children : List Html) :
    (FeaturesDiagonal children).motions = revealOnce :: Html.motionsList children := by
  simp [FeaturesDiagonal, diagonalSvg, Html.motions, Html.motionsList]

/-- The state of a revealed element whose observer is detached. -/
theorem step_revealed (e : ViewportEvent) :
    Reveal.step revealOnce { target := 1, observing := false } e
      = { target := 1, observing := false } := by
  cases e <;> rfl

theorem trace_revealed (evs : List ViewportEvent) :
    Reveal.trace revealOnce { target := 1, observing := false } evs
      = List.replicate (evs.length + 1) 1 := by
  induction evs with
  | nil => rfl
  | cons e es ih => simp [Reveal.trace, step_revealed, ih, List.replicate_succ]

theorem trace_mount (evs : List ViewportEvent) :
    Reveal.trace revealOnce (Reveal.mount revealOnce) evs
      = List.replicate (1 + (evs.takeWhile fun e => decide (e = ViewportEvent.leave)).length) 0
        ++ List.replicate
            (evs.length - (evs.takeWhile fun e => decide (e = ViewportEvent.leave)).length) 1 := by
  induction evs with
  | nil => rfl
  | cons e es ih =>
    cases e with
    | enter =>
      have h : Reveal.step revealOnce (Reveal.mount revealOnce) ViewportEvent.enter
          = { target := 1, observing := false } := rfl
      simp [Reveal.trace, h, trace_revealed, List.replicate_succ]
      rfl
    | leave =>
      have h : Reveal.step revealOnce (Reveal.mount revealOnce) ViewportEvent.leave
          = Reveal.mount revealOnce := rfl
      have ht : (Reveal.mount revealOnce).target = 0 := rfl
      simp only [Reveal.trace, h, ih, ht, List.takeWhile_cons, decide_True, if_true,
        List.length_cons]
      generalize (es.takeWhile fun e => decide (e = ViewportEvent.leave)).length = k
      have e₁ : 1 + (k + 1) = (1 + k) + 1 := by omega
      have e₂ : es.length + 1 - (k + 1) = es.length - k := by omega
      rw [e₁, e₂, List.replicate_succ]
      rfl

theorem rises_ones (n : Nat) : rises (List.replicate n 1) = 0 := by
  induction n with
  | zero => rfl
  | succ k ih =>
    cases k with
    | zero => rfl
    | succ j => simpa [List.replicate_succ, rises] using ih

theorem falls_ones (n : Nat) : falls (List.replicate n 1) = 0 := by
  induction n with
  | zero => rfl
  | succ k ih =>
    cases k with
    | zero => rfl
    | succ j => simpa [List.replicate_succ, falls] using ih

theorem rises_zeros_ones (a b : Nat) :
    rises (List.replicate (1 + a) 0 ++ List.replicate b 1) ≤ 1 := by
  induction a with
  | zero =>
    cases b with
    | zero => simp [rises]
    | succ j =>
      have := rises_ones (j + 1)
      simp [List.replicate_succ, rises] at this ⊢
      omega
  | succ k ih =>
    have e : 1 + (k + 1) = (1 + k) + 1 := by omega
    rw [e, List.replicate_succ]
    rw [Nat.add_comm 1 k, List.replicate_succ] at ih ⊢
    simpa [rises] using ih

theorem falls_zeros_ones (a b : Nat) :
    falls (List.replicate (1 + a) 0 ++ List.replicate b 1) = 0 := by
  induction a with
  | zero =>
    cases b with
    | zero => simp [falls]
    | succ j =>
      have := falls_ones (j + 1)
      simp [List.replicate_succ, falls] at this ⊢
      omega
  | succ k ih =>
    have e : 1 + (k + 1) = (1 + k) + 1 := by omega
    rw [e, List.replicate_succ]
    rw [Nat.add_comm 1 k, List.replicate_succ] at ih ⊢
    simpa [falls] using ih

theorem run_revealed (evs : List ViewportEvent) :
    Reveal.run revealOnce { target := 1, observing := false } evs
      = { target := 1, observing := false } := by
  induction evs with
  | nil => rfl
  | cons e es ih => simpa [Reveal.run, step_revealed] using ih

theorem run_enter (pre post : List ViewportEvent) :
    Reveal.run revealOnce (Reveal.mount revealOnce) (pre ++ ViewportEvent.enter :: post)
      = { target := 1, observing := false } := by
  induction pre with
  | nil => exact run_revealed post
  | cons e es ih =>
    cases e with
    | enter => exact run_revealed _
    | leave => exact ih

theorem trace_getLast (m : Motion) (st : Reveal) (evs : List ViewportEvent) :
    (Reveal.trace m st evs).getLast? = some (Reveal.run m st evs).target := by
  induction evs generalizing st with
  | nil => rfl
  | cons e es ih =>
    obtain ⟨x, xs, hx⟩ : ∃ x xs, Reveal.trace m (Reveal.step m st e) es = x :: xs := by
      cases es <;> exact ⟨_, _, rfl⟩
    rw [Reveal.trace, hx, List.getLast?_cons_cons, ← hx, ih]
    rfl

/-- Without `once` the same element is hidden again when it leaves the
viewport: the flag is what makes the reveal one-shot. -/
theorem trace_without_once :
    Reveal.trace { revealOnce with viewportOnce := false }
        (Reveal.mount { revealOnce with viewportOnce := false })
        [ViewportEvent.enter, ViewportEvent.leave, ViewportEvent.enter]
      = [0, 1, 0, 1] := by
  decide

/-- C6: the `motion.div` of `Features1` and of `FeaturesDiagonal` has
`initial` opacity 0, `whileInView` opacity 1 and `viewport.once`.  For every
sequence of enter and leave events, the opacity target is 0 up to the first
enter event and 1 from it on: an enter event anywhere in the sequence leaves
the target at 1 whatever follows, the target goes from 0 to 1 at most once and
never from 1 to 0. -/
theorem reveal_one_shot (evs post : List ViewportEvent) (children : List Html) :
    Features1.motions = [revealOnce]
    ∧ (FeaturesDiagonal children).motions = revealOnce :: Html.motionsList children
    ∧ (Reveal.mount revealOnce).target = 0
    ∧ Reveal.trace revealOnce (Reveal.mount revealOnce) evs
        = List.replicate (1 + (evs.takeWhile fun e => decide (e = ViewportEvent.leave)).length) 0
          ++ List.replicate
              (evs.length - (evs.takeWhile fun e => decide (e = ViewportEvent.leave)).length) 1
    ∧ (Reveal.trace revealOnce (Reveal.mount revealOnce) (evs ++ ViewportEvent.enter :: post)).getLast?
        = some 1
    ∧ (Reveal.run revealOnce (Reveal.mount revealOnce) (evs ++ ViewportEvent.enter :: post)).target = 1
    ∧ rises (Reveal.trace revealOnce (Reveal.mount revealOnce) evs) ≤ 1
    ∧ falls (Reveal.trace revealOnce (Reveal.mount revealOnce) evs) = 0 := by
  refine ⟨by decide, featuresDiagonal_motions children, rfl, trace_mount evs, ?_, ?_, ?_, ?_⟩
  · rw [trace_getLast, run_enter]
  · rw [run_enter]
  · rw [trace_mount]; exact rises_zeros_ones _ _
  · rw [trace_mount]; exact falls_zeros_ones _ _

/-! ## Footer: theorems -/

/-- C7: `footerData` has exactly three sections, so `footerData[0]`,
`footerData[1]` and `footerData[2]` exist and `Footer` renders a tree; its
three category columns have, in order, the headings `footerData[i].title` and
under each heading exactly the links `footerData[i].items` in table order,
each with text `item.title` and destination `item.href`. -/
theorem footer_renders_table :
    footerData.length = 3
    ∧ Footer.isSome = true
    ∧ Footer.map Html.columns
        = some (footerData.map fun s => (s.title, s.items.map FooterItem.anchor))
    ∧ (Footer.map fun t => (t.columns.map Prod.fst))
        = some ["Products", "Important Links", "Company"] := by
  decide

/-- C10, evaluated on the code: the Footer contains the box of social anchors,
whose destinations and `aria-label`s are, in order, twitter.com / `Twitter`,
discord.gg / `GitHub` and github.com / `GitHub`; the Discord anchor, with the
Discord icon, is labelled `GitHub` and the three labels are not pairwise
distinct. -/
theorem discord_link_labelled_github :
    Footer.map (Html.contains socialLinks) = some true
    ∧ (socialLinks.anchors []).map (fun a => (a.href, a.ariaLabel))
        = [(some "https://twitter.com/CodeGenieCodes", some "Twitter"),
           (some "https://discord.gg/YJ9gQhheyn", some "GitHub"),
           (some "https://github.com/CodeGenieApp", some "GitHub")]
    ∧ ¬ ((socialLinks.anchors []).map fun a => a.ariaLabel).Nodup := by
  decide

end CodeGenie
